import Mathlib

/-!
Verification of the Period Alignment & Aggregation Engine of
`src/project/app.py` (energy dashboard).

The development shallowly embeds the data-transformation core of the app:

* `build_comparison_df` (app.py lines 171-206): the period-alignment routine.
  Month/week comparison filters rows by the pandas period string of their
  timestamp (`to_period("M")` / `to_period("W")` rendered with `astype(str)`),
  tags them with `Period` and `AlignedX` columns and concatenates the subsets;
  date-range mode filters by `to_datetime(start) <= Timestamp <=
  to_datetime(end)` (the bounds are calendar dates, normalized to midnight)
  and tags a single `Period` label.  The `px.line` call raises when the
  selected column is absent from the built frame; that raise is modelled as
  the `Except.error` case.
* the totals computation (line 252): `groupby("Period")[var].sum()` with the
  pandas default `sort=True`, so group keys come out sorted, and
* `render_kpis` (lines 212-223): mean/max/min plus `idxmax`, which raises on
  an empty column.
* the upload portion of `render_sidebar` (lines 95-109), modelled as an
  explicit state-passing step over the session slot `csv_data`.

Timestamps are modelled as a calendar date (year/month/day as `Nat`) plus a
time-of-day in minutes; calendar arithmetic (day numbers, weekday, the
pandas period strings) is implemented from first principles over `Nat`.

A second, statement-level model of `build_comparison_df` over an explicit
heap of dataframes captures the write effects of the pandas statements
(boolean indexing copies, column assignment writes in place), used for the
frame-preservation property.
-/

deriving instance DecidableEq for Except

namespace EnergyApp

/-! ### Calendar arithmetic -/

def isLeap (y : Nat) : Bool :=
  (y % 4 == 0 && y % 100 != 0) || y % 400 == 0

def daysInMonth (y m : Nat) : Nat :=
  if m == 2 then (if isLeap y then 29 else 28)
  else if m == 4 || m == 6 || m == 9 || m == 11 then 30
  else 31

/-- Day number of a Gregorian date, counted from 0000-03-01 (so that
1970-01-01 is day 719468).  Standard civil-from-days algorithm restricted to
nonnegative years. -/
def rataDie (y m d : Nat) : Nat :=
  let y2 := if m ≤ 2 then y - 1 else y
  let era := y2 / 400
  let yoe := y2 % 400
  let mp := (m + 9) % 12
  let doy := (153 * mp + 2) / 5 + d - 1
  era * 146097 + yoe * 365 + yoe / 4 - yoe / 100 + doy

/-- Inverse of `rataDie`: the Gregorian date of a day number. -/
def civilFromDays (z : Nat) : Nat × Nat × Nat :=
  let era := z / 146097
  let doe := z % 146097
  let yoe := (doe - doe / 1460 + doe / 36524 - doe / 146096) / 365
  let doy := doe - (365 * yoe + yoe / 4 - yoe / 100)
  let mp := (5 * doy + 2) / 153
  let d := doy - (153 * mp + 2) / 5 + 1
  let m := if mp < 10 then mp + 3 else mp - 9
  (era * 400 + yoe + (if m ≤ 2 then 1 else 0), m, d)

/-- A pandas `Timestamp`: a calendar date plus a time of day in minutes
(0 = midnight). -/
structure Timestamp where
  year : Nat
  month : Nat
  day : Nat
  tod : Nat
deriving DecidableEq, Repr

def Timestamp.dayNumber (t : Timestamp) : Nat :=
  rataDie t.year t.month t.day

/-- Weekday of a timestamp, 0 = Monday (pandas `dt.weekday`). -/
def Timestamp.weekday (t : Timestamp) : Nat :=
  (t.dayNumber + 2) % 7

/-- The timestamp denotes an actual calendar date and time of day. -/
def Timestamp.ValidDate (t : Timestamp) : Prop :=
  1 ≤ t.month ∧ t.month ≤ 12 ∧ 1 ≤ t.day ∧ t.day ≤ daysInMonth t.year t.month
    ∧ t.tod < 1440

instance (t : Timestamp) : Decidable t.ValidDate := by
  unfold Timestamp.ValidDate; infer_instance

/-- Comparison of pandas timestamps (`<=` on datetimes): day number first,
then time of day. -/
def Timestamp.le (a b : Timestamp) : Bool :=
  decide (a.dayNumber < b.dayNumber)
    || (decide (a.dayNumber = b.dayNumber) && decide (a.tod ≤ b.tod))

/-- A `datetime.date` as produced by the sidebar date-range widget. -/
structure CalDate where
  year : Nat
  month : Nat
  day : Nat
deriving DecidableEq, Repr

/-- Result of `pd.to_datetime` applied to a date: midnight of that day. -/
def CalDate.toTimestamp (d : CalDate) : Timestamp :=
  ⟨d.year, d.month, d.day, 0⟩

def Timestamp.dateOf (t : Timestamp) : CalDate :=
  ⟨t.year, t.month, t.day⟩

/-- Order on calendar dates by day number. -/
def CalDate.le (a b : CalDate) : Bool :=
  decide (rataDie a.year a.month a.day ≤ rataDie b.year b.month b.day)

/-! ### String renderings (pandas `astype(str)` / Python `str()`) -/

def pad2 (n : Nat) : String :=
  if n < 10 then "0" ++ toString n else toString n

def pad4 (n : Nat) : String :=
  if n < 10 then "000" ++ toString n
  else if n < 100 then "00" ++ toString n
  else if n < 1000 then "0" ++ toString n
  else toString n

/-- ISO rendering "YYYY-MM-DD" of a date (Python `str(date)`). -/
def dateStrYMD (y m d : Nat) : String :=
  pad4 y ++ "-" ++ pad2 m ++ "-" ++ pad2 d

def CalDate.iso (d : CalDate) : String :=
  dateStrYMD d.year d.month d.day

/-- Pandas `Timestamp.dt.to_period("M").astype(str)`: the "YYYY-MM" label of the
timestamp's month. -/
def monthPeriodStr (t : Timestamp) : String :=
  pad4 t.year ++ "-" ++ pad2 t.month

def dateStrOfDayNumber (z : Nat) : String :=
  let c := civilFromDays z
  dateStrYMD c.1 c.2.1 c.2.2

/-- Pandas `Timestamp.dt.to_period("W").astype(str)`: weekly periods default
to `W-SUN` (Monday-Sunday weeks, the ISO-week grouping), rendered as
"start/end" with both bounds as ISO dates. -/
def weekPeriodStr (t : Timestamp) : String :=
  let monday := t.dayNumber - t.weekday
  dateStrOfDayNumber monday ++ "/" ++ dateStrOfDayNumber (monday + 6)

/-- Lexicographic comparison of character lists (Python compares strings by
code points). -/
def charListLe : List Char → List Char → Bool
  | [], _ => true
  | _ :: _, [] => false
  | a :: as, b :: bs =>
    decide (a < b) || (decide (a = b) && charListLe as bs)

/-- The ascending string order used by the pandas `groupby` key sort. -/
def strLe (a b : String) : Bool :=
  charListLe a.data b.data

/-! ### The Measurement Table -/

/-- One row of the uploaded table after timestamp conversion: the timestamp
plus the named numeric variable columns. -/
structure Row where
  ts : Timestamp
  vals : List (String × Int)
deriving DecidableEq, Repr

/-- The Measurement Table: the variable column names (the columns after
`Timestamp`) and the rows. -/
structure Table where
  cols : List String
  rows : List Row
deriving DecidableEq, Repr

/-- A Period Row: a measurement row annotated by `build_comparison_df` with
the `Period` column and, in month/week mode, the `AlignedX` column
(`none` models the column's absence in date-range mode). -/
structure PRow where
  ts : Timestamp
  vals : List (String × Int)
  period : String
  alignedX : Option Nat
deriving DecidableEq, Repr

inductive BuildError where
  | unknownVariable
deriving DecidableEq, Repr

/-- Design-level description of the `px.line` chart request built alongside
the frame: x column, y column, color column and the x-axis title set by
`update_layout` (none in date-range mode, where it is left at default). -/
structure TrendPlot where
  x : String
  y : String
  color : String
  xTitle : Option String
deriving DecidableEq, Repr

def tagMonth (m : String) (r : Row) : PRow :=
  ⟨r.ts, r.vals, m, some r.ts.day⟩

/-- The month-comparison loop (lines 177-182): for each selected month label,
filter the rows whose month period string equals the label, tag them, and
concatenate in selection order. -/
def monthBranchDf (data : Table) (months : List String) : List PRow :=
  months.flatMap fun m =>
    (data.rows.filter fun r => monthPeriodStr r.ts == m).map (tagMonth m)

def tagWeek (w : String) (r : Row) : PRow :=
  ⟨r.ts, r.vals, w, some r.ts.weekday⟩

/-- The week-comparison loop (lines 188-193). -/
def weekBranchDf (data : Table) (weeks : List String) : List PRow :=
  weeks.flatMap fun w =>
    (data.rows.filter fun r => weekPeriodStr r.ts == w).map (tagWeek w)

/-- The `Period` label of date-range mode: the f-string
"{base_start} → {base_end}" over the two dates. -/
def rangeLabel (s e : CalDate) : String :=
  s.iso ++ " → " ++ e.iso

def tagRange (s e : CalDate) (r : Row) : PRow :=
  ⟨r.ts, r.vals, rangeLabel s e, none⟩

/-- The date-range branch (lines 199-202): keep rows with
`to_datetime(start) <= Timestamp <= to_datetime(end)` and tag them all with
the single range label.  No `AlignedX` column is added. -/
def rangeBranchDf (data : Table) (s e : CalDate) : List PRow :=
  (data.rows.filter fun r =>
      Timestamp.le s.toTimestamp r.ts && Timestamp.le r.ts e.toTimestamp).map
    (tagRange s e)

/-- Columns of the frame built in month/week mode: the uploaded columns plus
the two synthetic ones. -/
def monthWeekCols (data : Table) : List String :=
  "Timestamp" :: data.cols ++ ["Period", "AlignedX"]

/-- Columns of the frame built in date-range mode (no `AlignedX`). -/
def rangeCols (data : Table) : List String :=
  "Timestamp" :: data.cols ++ ["Period"]

/-- The routine `build_comparison_df` (lines 171-206).  Branch order is the source's
`if months: ... elif weeks: ... else: ...` (Python truthiness of the lists).
Each branch builds the frame and then calls `px.line`, which raises when the
y column is not a column of the built frame; the raise is the `error` case
and the returned pair is the `ok` case. -/
def build_comparison_df (data : Table) (selected_var : String)
    (date_range : CalDate × CalDate) (months weeks : List String) :
    Except BuildError (List PRow × TrendPlot) :=
  if months ≠ [] then
    if selected_var ∈ monthWeekCols data then
      .ok (monthBranchDf data months,
           ⟨"AlignedX", selected_var, "Period", some "Day of Month"⟩)
    else .error .unknownVariable
  else if weeks ≠ [] then
    if selected_var ∈ monthWeekCols data then
      .ok (weekBranchDf data weeks,
           ⟨"AlignedX", selected_var, "Period", some "Day of Week"⟩)
    else .error .unknownVariable
  else
    if selected_var ∈ rangeCols data then
      .ok (rangeBranchDf data date_range.1 date_range.2,
           ⟨"Timestamp", selected_var, "Period", none⟩)
    else .error .unknownVariable

/-- The frame part of a `build_comparison_df` outcome (empty on the raise
path, where no frame is returned at all). -/
def resultRows (e : Except BuildError (List PRow × TrendPlot)) : List PRow :=
  match e with
  | .ok (df, _) => df
  | .error _ => []

/-! ### Totals by period (line 252) -/

/-- Value of the named column in a period row (0 for an absent column; the
app only reads columns that are present). -/
def colVal (r : PRow) (v : String) : Int :=
  (((r.vals.find? fun p => p.1 == v).map Prod.snd)).getD 0

/-- Sum of the variable over the rows of one period group. -/
def groupSum (df : List PRow) (v : String) (p : String) : Int :=
  ((df.filter fun r => r.period == p).map fun r => colVal r v).sum

/-- The totals computation `final_df.groupby("Period")[selected_var].sum().reset_index()`: pandas
`groupby` defaults to `sort=True`, so the group keys are the distinct
`Period` values in ascending (lexicographic) order. -/
def totalsByPeriod (df : List PRow) (v : String) : List (String × Int) :=
  (((df.map PRow.period).dedup).insertionSort fun a b => strLe a b = true).map
    fun p => (p, groupSum df v p)

/-- Modelled from the spec: the spec's words for `aggregateByPeriod` order
the groups by first appearance of each `Period` value ("group key order =
first-appearance order"); stated here for comparison against the
implementation's sorted order. -/
def totalsByPeriodFirstAppearance (df : List PRow) (v : String) :
    List (String × Int) :=
  ((df.map PRow.period).eraseDups).map fun p => (p, groupSum df v p)

/-! ### KPIs (`render_kpis`, lines 212-223) -/

/-- Pandas `Series.idxmax`: index of the first occurrence of the maximum; pandas
raises `ValueError` on an empty series, modelled as `none`. -/
def idxmax (l : List Int) : Option Nat :=
  l.max?.bind fun m => l.findIdx? fun x => x == m

structure Kpis where
  avg : Option ℚ
  maxVal : Option Int
  minVal : Option Int
  peakTime : Option Timestamp
deriving DecidableEq, Repr

inductive KpiError where
  | emptyArgmax
deriving DecidableEq, Repr

/-- The KPI routine `render_kpis`: mean/max/min of the selected column (pandas yields `NaN`
on an empty column, modelled as `none`) and the timestamp at
`df[var].idxmax()`.  On a zero-row frame the mean/max/min are computed
without raising, then `idxmax` raises `ValueError`; the uncaught raise is
the `error` case.  The frames produced by `build_comparison_df` always carry
the `Timestamp` column, so the source's `if "Timestamp" in df` guard takes
its then-branch on them. -/
def render_kpis (df : List PRow) (v : String) : Except KpiError Kpis :=
  let vs := df.map fun r => colVal r v
  match idxmax vs with
  | none => .error .emptyArgmax
  | some i =>
      .ok ⟨some ((vs.sum : ℚ) / vs.length), vs.max?, vs.min?,
           (df[i]?).map PRow.ts⟩

/-! ### The upload step of `render_sidebar` (lines 95-109) -/

/-- The frame produced by `pd.read_csv`: header names and the cell texts of
each row. -/
structure RawTable where
  cols : List String
  cells : List (List String)
deriving DecidableEq, Repr

/-- Split a character list at every occurrence of the separator. -/
def splitOnCharAux (c : Char) : List Char → List Char → List (List Char)
  | [], acc => [acc.reverse]
  | x :: t, acc =>
    if x = c then acc.reverse :: splitOnCharAux c t []
    else splitOnCharAux c t (x :: acc)

def splitOnChar (c : Char) (s : String) : List String :=
  (splitOnCharAux c s.data []).map String.mk

/-- Decimal reading of a digit string (`none` when empty or non-digit). -/
def natOfString? (s : String) : Option Nat :=
  if s.data.isEmpty then none
  else
    s.data.foldl
      (fun acc c =>
        acc.bind fun n => if c.isDigit then some (n * 10 + (c.toNat - 48)) else none)
      (some 0)

/-- Models `pd.to_datetime` on a cell of the `Timestamp` column for
ISO-formatted inputs "YYYY-MM-DD" or "YYYY-MM-DD HH:MM"; anything else is
treated as unparsable (`none`, the raise path of `to_datetime`). -/
def parseDatePart (s : String) : Option (Nat × Nat × Nat) :=
  match splitOnChar '-' s with
  | [ys, ms, ds] =>
    match natOfString? ys, natOfString? ms, natOfString? ds with
    | some y, some m, some d =>
        if 1 ≤ m ∧ m ≤ 12 ∧ 1 ≤ d ∧ d ≤ daysInMonth y m then some (y, m, d)
        else none
    | _, _, _ => none
  | _ => none

def parseTimePart (s : String) : Option Nat :=
  match splitOnChar ':' s with
  | [hs, ms] =>
    match natOfString? hs, natOfString? ms with
    | some h, some mi => if h < 24 ∧ mi < 60 then some (h * 60 + mi) else none
    | _, _ => none
  | _ => none

def parseTs (s : String) : Option Timestamp :=
  match splitOnChar ' ' s with
  | [d] => (parseDatePart d).map fun c => ⟨c.1, c.2.1, c.2.2, 0⟩
  | [d, t] =>
    match parseDatePart d, parseTimePart t with
    | some c, some tod => some ⟨c.1, c.2.1, c.2.2, tod⟩
    | _, _ => none
  | _ => none

inductive UploadErr where
  /-- The access `data["Timestamp"]` raises `KeyError`: no such column. -/
  | missingTimestamp
  /-- The call `pd.to_datetime` raises on an unparsable cell. -/
  | unparsableTimestamp
deriving DecidableEq, Repr

/-- Line 109, `data["Timestamp"] = pd.to_datetime(data["Timestamp"])`:
locate the `Timestamp` column and parse every cell of it. -/
def convertTimestamps (raw : RawTable) :
    Except UploadErr (List (Timestamp × List String)) :=
  match raw.cols.findIdx? (fun c => c == "Timestamp") with
  | none => .error .missingTimestamp
  | some i =>
      raw.cells.mapM fun row =>
        match row[i]? with
        | some s =>
          match parseTs s with
          | some t => .ok (t, row.eraseIdx i)
          | none => .error .unparsableTimestamp
        | none => .error .unparsableTimestamp

/-- The session slot `st.session_state.csv_data`. -/
structure SessionState where
  csv_data : Option RawTable
deriving DecidableEq, Repr

inductive SidebarResult where
  /-- Nothing uploaded yet: `render_sidebar` returned `None`. -/
  | noData
  /-- The timestamp conversion raised; the raise propagates. -/
  | uploadError (e : UploadErr)
  /-- Conversion succeeded; the sidebar proceeds with the table. -/
  | ok (rows : List (Timestamp × List String))
deriving DecidableEq, Repr

/-- The upload portion of `render_sidebar` (lines 95-109) as a step on the
session state: a fresh upload is written into `csv_data` BEFORE the
`Timestamp` conversion runs; if the conversion raises, the function aborts
with the uploaded frame already stored. -/
def render_sidebar_upload (st : SessionState) (uploaded : Option RawTable) :
    SessionState × SidebarResult :=
  let st1 : SessionState :=
    match uploaded with
    | some f => { csv_data := some f }
    | none => st
  match st1.csv_data with
  | none => (st1, .noData)
  | some raw =>
    match convertTimestamps raw with
    | .error e => (st1, .uploadError e)
    | .ok rows => (st1, .ok rows)

/-! ### Statement-level heap model of `build_comparison_df`

The frame-preservation property is about mutation, so the routine is modelled
a second time at statement level: dataframes live in an explicit heap of
numbered frames, pandas boolean indexing (`data[mask]`, `data.loc[mask]
.copy()`) allocates a fresh copy, `pd.concat` allocates a fresh frame, and a
column assignment `df["c"] = ...` writes through the frame's number.  The
`px.line` calls only read frames and are omitted; on their raise path the
heap at the raise equals the heap returned here. -/

/-- A row as held in a heap frame: the uploaded columns plus the two
synthetic columns, absent (`none`) until assigned. -/
structure HRow where
  ts : Timestamp
  vals : List (String × Int)
  period : Option String
  alignedX : Option Nat
deriving DecidableEq, Repr

/-- A heap of numbered frames.  `next` is the next fresh frame number; all
allocation goes through `Heap.alloc`, so live numbers are below `next`. -/
structure Heap where
  next : Nat
  entries : List (Nat × List HRow)
deriving DecidableEq, Repr

def Heap.get (h : Heap) (i : Nat) : Option (List HRow) :=
  (h.entries.find? fun p => p.1 == i).map Prod.snd

def Heap.set (h : Heap) (i : Nat) (v : List HRow) : Heap :=
  ⟨h.next, h.entries.map fun p => if p.1 == i then (i, v) else p⟩

def Heap.alloc (h : Heap) (v : List HRow) : Heap × Nat :=
  (⟨h.next + 1, (h.next, v) :: h.entries⟩, h.next)

/-- One iteration of the month/week comparison loop (lines 178-182 resp.
189-193): boolean indexing copies the matching rows out of `data` into a
fresh frame `df_m`, the two column assignments write to `df_m` only, and
`pd.concat` allocates the new `final_df`. -/
def compareStep (dataId : Nat) (pred : HRow → Bool) (label : String)
    (alignedOf : HRow → Nat) (acc : Heap × Nat) : Heap × Nat :=
  let h := acc.1
  let finalId := acc.2
  let p1 := h.alloc (((h.get dataId).getD []).filter pred)
  let h1 := p1.1
  let mId := p1.2
  let h2 := h1.set mId
    (((h1.get mId).getD []).map fun r => { r with period := some label })
  let h3 := h2.set mId
    (((h2.get mId).getD []).map fun r => { r with alignedX := some (alignedOf r) })
  let p4 := h3.alloc (((h3.get finalId).getD []) ++ ((h3.get mId).getD []))
  (p4.1, p4.2)

/-- The routine `build_comparison_df` at statement level: returns the heap after the
routine together with the number of the frame bound to `final_df`. -/
def build_comparison_heap (h : Heap) (dataId : Nat)
    (date_range : CalDate × CalDate) (months weeks : List String) :
    Heap × Nat :=
  if months ≠ [] then
    -- final_df = pd.DataFrame(); then the month loop
    months.foldl
      (fun acc m =>
        compareStep dataId (fun r => monthPeriodStr r.ts == m) m
          (fun r => r.ts.day) acc)
      (h.alloc [])
  else if weeks ≠ [] then
    weeks.foldl
      (fun acc w =>
        compareStep dataId (fun r => weekPeriodStr r.ts == w) w
          (fun r => r.ts.weekday) acc)
      (h.alloc [])
  else
    -- final_df = data.loc[mask].copy(); final_df["Period"] = label
    let s := date_range.1
    let e := date_range.2
    let p1 := h.alloc (((h.get dataId).getD []).filter fun r =>
      Timestamp.le s.toTimestamp r.ts && Timestamp.le r.ts e.toTimestamp)
    let h2 := p1.1.set p1.2
      (((p1.1.get p1.2).getD []).map fun r =>
        { r with period := some (rangeLabel s e) })
    (h2, p1.2)

/-! ### Concrete inputs for counterexamples and witnesses -/

/-- Midnight of 2024-01-01 (a Monday). -/
def ts1 : Timestamp := ⟨2024, 1, 1, 0⟩

/-- Noon of 2024-01-01. -/
def ts2 : Timestamp := ⟨2024, 1, 1, 720⟩

/-- A two-row table whose rows both fall on 2024-01-01, one at midnight and
one at noon. -/
def t1 : Table := ⟨["kWh"], [⟨ts1, [("kWh", 5)]⟩, ⟨ts2, [("kWh", 7)]⟩]⟩

def d1 : CalDate := ⟨2024, 1, 1⟩

def d2 : CalDate := ⟨2024, 1, 2⟩

/-- A table whose rows all sit at midnight, spanning 2024-01-01..02. -/
def tMid : Table :=
  ⟨["kWh"], [⟨ts1, [("kWh", 5)]⟩, ⟨⟨2024, 1, 2, 0⟩, [("kWh", 8)]⟩]⟩

/-- A one-row table in May 2024, outside the range selections used below. -/
def t3 : Table := ⟨["kWh"], [⟨⟨2024, 5, 1, 0⟩, [("kWh", 3)]⟩]⟩

/-- An aligned table whose periods appear in the order "B", "B", "A". -/
def dfBA : List PRow :=
  [⟨ts1, [("kWh", 10)], "B", some 1⟩, ⟨ts2, [("kWh", 20)], "B", some 1⟩,
   ⟨⟨2024, 2, 1, 0⟩, [("kWh", 5)], "A", some 1⟩]

/-- A well-formed uploaded CSV. -/
def goodRaw : RawTable := ⟨["Timestamp", "kWh"], [["2024-01-01", "5"]]⟩

/-- An uploaded CSV with no `Timestamp` column. -/
def badRaw : RawTable := ⟨["Date", "kWh"], [["2024-01-01", "5"]]⟩

def rows0 : List HRow :=
  [⟨ts1, [("kWh", 5)], none, none⟩, ⟨ts2, [("kWh", 7)], none, none⟩]

/-- A heap holding the uploaded table as frame 0. -/
def h0 : Heap := ⟨1, [(0, rows0)]⟩

/-! ### Helper lemmas -/

theorem tsLe_iff (a b : Timestamp) :
    Timestamp.le a b = true ↔
      a.dayNumber < b.dayNumber ∨ (a.dayNumber = b.dayNumber ∧ a.tod ≤ b.tod) := by
  simp [Timestamp.le]

/-- The date-range filter with both bounds equal to one date keeps exactly
the rows at that date's midnight. -/
theorem singleDay_filter_pred (D : CalDate) (t : Timestamp) :
    (Timestamp.le D.toTimestamp t && Timestamp.le t D.toTimestamp)
      = (decide (t.dayNumber = D.toTimestamp.dayNumber) && decide (t.tod = 0)) := by
  rw [Bool.eq_iff_iff]
  simp only [Bool.and_eq_true, decide_eq_true_eq, tsLe_iff]
  simp only [CalDate.toTimestamp, Timestamp.dayNumber]
  omega

theorem dedup_const {α : Type} [DecidableEq α] {a : α} {l : List α} (hne : l ≠ [])
    (hall : ∀ x ∈ l, x = a) : l.dedup = [a] := by
  induction l with
  | nil => exact absurd rfl hne
  | cons x t ih =>
    have hx : x = a := hall x (List.mem_cons_self x t)
    subst hx
    cases t with
    | nil => simp
    | cons y t2 =>
      have hmem : x ∈ y :: t2 := by
        have hy : y = x := hall y (by simp)
        rw [hy]
        exact List.mem_cons_self x t2
      rw [List.dedup_cons_of_mem hmem]
      exact ih (by simp) fun z hz => hall z (List.mem_cons_of_mem x hz)

theorem daysInMonth_le_31 (y m : Nat) : daysInMonth y m ≤ 31 := by
  unfold daysInMonth
  split
  · split <;> omega
  · split <;> omega

theorem charListLe_total : ∀ a b : List Char, charListLe a b = true ∨ charListLe b a = true
  | [], _ => Or.inl rfl
  | _ :: _, [] => Or.inr rfl
  | a :: as, b :: bs => by
    rcases lt_trichotomy a b with h | h | h
    · left; simp [charListLe, h]
    · subst h
      rcases charListLe_total as bs with ih | ih
      · left; simp [charListLe, ih]
      · right; simp [charListLe, ih]
    · right; simp [charListLe, h]

theorem charListLe_trans : ∀ a b c : List Char,
    charListLe a b = true → charListLe b c = true → charListLe a c = true
  | [], _, _, _, _ => rfl
  | _ :: _, [], _, h, _ => by simp [charListLe] at h
  | _ :: _, _ :: _, [], _, h => by simp [charListLe] at h
  | x :: xs, y :: ys, z :: zs, h1, h2 => by
    simp only [charListLe, Bool.or_eq_true, Bool.and_eq_true, decide_eq_true_eq]
      at h1 h2 ⊢
    rcases h1 with h1 | ⟨he1, ht1⟩
    · rcases h2 with h2 | ⟨he2, ht2⟩
      · exact Or.inl (lt_trans h1 h2)
      · exact Or.inl (he2 ▸ h1)
    · rcases h2 with h2 | ⟨he2, ht2⟩
      · exact Or.inl (he1 ▸ h2)
      · exact Or.inr ⟨he1.trans he2, charListLe_trans xs ys zs ht1 ht2⟩

instance : IsTotal String fun a b => strLe a b = true :=
  ⟨fun a b => charListLe_total a.data b.data⟩

instance : IsTrans String fun a b => strLe a b = true :=
  ⟨fun a b c => charListLe_trans a.data b.data c.data⟩

/-- With both selection lists empty, `build_comparison_df` takes the
date-range branch. -/
theorem range_branch_ok {data : Table} {v : String} {s e : CalDate}
    {df : List PRow} {plot : TrendPlot}
    (hok : build_comparison_df data v (s, e) [] [] = .ok (df, plot)) :
    df = rangeBranchDf data s e := by
  have hred : build_comparison_df data v (s, e) [] []
      = (if v ∈ rangeCols data then
           Except.ok (rangeBranchDf data s e, ⟨"Timestamp", v, "Period", none⟩)
         else Except.error BuildError.unknownVariable) := rfl
  rw [hred] at hok
  split at hok
  · simp only [Except.ok.injEq, Prod.mk.injEq] at hok
    exact hok.1.symm
  · simp at hok

/-- With a non-empty month list, `build_comparison_df` takes the month
branch. -/
theorem month_branch_ok {data : Table} {v : String} {range : CalDate × CalDate}
    {months weeks : List String} {df : List PRow} {plot : TrendPlot}
    (hmon : months ≠ [])
    (hok : build_comparison_df data v range months weeks = .ok (df, plot)) :
    df = monthBranchDf data months := by
  obtain ⟨m0, ms, rfl⟩ : ∃ m0 ms, months = m0 :: ms := by
    cases months with
    | nil => exact absurd rfl hmon
    | cons a b => exact ⟨a, b, rfl⟩
  have hred : build_comparison_df data v range (m0 :: ms) weeks
      = (if v ∈ monthWeekCols data then
           Except.ok (monthBranchDf data (m0 :: ms),
             ⟨"AlignedX", v, "Period", some "Day of Month"⟩)
         else Except.error BuildError.unknownVariable) := rfl
  rw [hred] at hok
  split at hok
  · simp only [Except.ok.injEq, Prod.mk.injEq] at hok
    exact hok.1.symm
  · simp at hok

/-- With an empty month list and a non-empty week list,
`build_comparison_df` takes the week branch. -/
theorem week_branch_ok {data : Table} {v : String} {range : CalDate × CalDate}
    {weeks : List String} {df : List PRow} {plot : TrendPlot}
    (hwk : weeks ≠ [])
    (hok : build_comparison_df data v range [] weeks = .ok (df, plot)) :
    df = weekBranchDf data weeks := by
  obtain ⟨w0, ws, rfl⟩ : ∃ w0 ws, weeks = w0 :: ws := by
    cases weeks with
    | nil => exact absurd rfl hwk
    | cons a b => exact ⟨a, b, rfl⟩
  have hred : build_comparison_df data v range [] (w0 :: ws)
      = (if v ∈ monthWeekCols data then
           Except.ok (weekBranchDf data (w0 :: ws),
             ⟨"AlignedX", v, "Period", some "Day of Week"⟩)
         else Except.error BuildError.unknownVariable) := rfl
  rw [hred] at hok
  split at hok
  · simp only [Except.ok.injEq, Prod.mk.injEq] at hok
    exact hok.1.symm
  · simp at hok

/-! ### Heap lemmas for the frame-preservation property -/

theorem find_entry_set (l : List (Nat × List HRow)) (i j : Nat) (v : List HRow)
    (hne : i ≠ j) :
    (l.map fun p => if p.1 == j then (j, v) else p).find? (fun p => p.1 == i)
      = l.find? fun p => p.1 == i := by
  induction l with
  | nil => rfl
  | cons p t ih =>
    by_cases hj : p.1 = j
    · rw [List.map_cons, if_pos (by simp [hj])]
      rw [List.find?_cons_of_neg _ (by simp; omega)]
      rw [List.find?_cons_of_neg _ (by simp [hj]; omega)]
      exact ih
    · rw [List.map_cons, if_neg (by simp [hj])]
      by_cases hi : p.1 = i
      · rw [List.find?_cons_of_pos _ (by simp [hi]),
            List.find?_cons_of_pos _ (by simp [hi])]
      · rw [List.find?_cons_of_neg _ (by simp [hi]),
            List.find?_cons_of_neg _ (by simp [hi])]
        exact ih

theorem Heap.get_set_ne (h : Heap) (i j : Nat) (v : List HRow) (hne : i ≠ j) :
    (h.set j v).get i = h.get i := by
  simp only [Heap.get, Heap.set]
  rw [find_entry_set h.entries i j v hne]

theorem Heap.get_alloc_lt (h : Heap) (v : List HRow) (i : Nat) (hi : i < h.next) :
    (h.alloc v).1.get i = h.get i := by
  simp only [Heap.get, Heap.alloc]
  rw [List.find?_cons_of_neg _ (by simp; omega)]

theorem Heap.next_set_eq (h : Heap) (j : Nat) (v : List HRow) :
    (h.set j v).next = h.next := rfl

theorem Heap.next_alloc_eq (h : Heap) (v : List HRow) :
    (h.alloc v).1.next = h.next + 1 := rfl

theorem Heap.alloc_snd (h : Heap) (v : List HRow) : (h.alloc v).2 = h.next := rfl

/-- Frame `dataId` survives an alloc-set-set-alloc statement block unchanged:
the two writes target the freshly allocated frame, not `dataId`. -/
theorem get_after_step (h : Heap) (dataId : Nat) (hlt : dataId < h.next)
    (A B C D : List HRow) :
    ((((h.alloc A).1.set (h.alloc A).2 B).set (h.alloc A).2 C).alloc D).1.get dataId
      = h.get dataId
    ∧ dataId
        < ((((h.alloc A).1.set (h.alloc A).2 B).set (h.alloc A).2 C).alloc D).1.next := by
  have hne : dataId ≠ (h.alloc A).2 := by
    rw [Heap.alloc_snd]; omega
  constructor
  · rw [Heap.get_alloc_lt _ _ _ (by
      rw [Heap.next_set_eq, Heap.next_set_eq, Heap.next_alloc_eq]; omega)]
    rw [Heap.get_set_ne _ _ _ _ hne, Heap.get_set_ne _ _ _ _ hne,
        Heap.get_alloc_lt _ _ _ hlt]
  · rw [Heap.next_alloc_eq, Heap.next_set_eq, Heap.next_set_eq, Heap.next_alloc_eq]
    omega

theorem compareStep_preserves (dataId : Nat) (pred : HRow → Bool) (label : String)
    (alignedOf : HRow → Nat) (p : Heap × Nat) (hlt : dataId < p.1.next) :
    (compareStep dataId pred label alignedOf p).1.get dataId = p.1.get dataId
    ∧ dataId < (compareStep dataId pred label alignedOf p).1.next := by
  unfold compareStep
  exact get_after_step p.1 dataId hlt _ _ _ _

theorem foldl_step_preserves (dataId : Nat) (step : String → Heap × Nat → Heap × Nat)
    (hstep : ∀ a p, dataId < p.1.next →
      (step a p).1.get dataId = p.1.get dataId ∧ dataId < (step a p).1.next) :
    ∀ (l : List String) (p : Heap × Nat), dataId < p.1.next →
      (l.foldl (fun acc a => step a acc) p).1.get dataId = p.1.get dataId
      ∧ dataId < (l.foldl (fun acc a => step a acc) p).1.next := by
  intro l
  induction l with
  | nil => exact fun p hlt => ⟨rfl, hlt⟩
  | cons a t ih =>
    intro p hlt
    simp only [List.foldl_cons]
    obtain ⟨hg, hn⟩ := hstep a p hlt
    obtain ⟨ihg, ihn⟩ := ih (step a p) hn
    exact ⟨ihg.trans hg, ihn⟩

/-- Frame `dataId` survives the date-range branch's alloc-then-set block. -/
theorem get_after_range (h : Heap) (dataId : Nat) (hlt : dataId < h.next)
    (A B : List HRow) :
    ((h.alloc A).1.set (h.alloc A).2 B).get dataId = h.get dataId := by
  have hne : dataId ≠ (h.alloc A).2 := by
    rw [Heap.alloc_snd]; omega
  rw [Heap.get_set_ne _ _ _ _ hne, Heap.get_alloc_lt _ _ _ hlt]

/-! ### The claims -/

/-- C1, counterexample to the claim as stated: `t1` is non-empty and the
single-day range `d1..d1` covers the whole table span in the claim's sense
(start at or before the earliest timestamp's date, end at or after the
latest timestamp's date), yet the aligned table has 1 row while the input
has 2 — the noon row is dropped because the end bound normalizes to
midnight. -/
theorem c1_counterexample :
    t1.rows ≠ []
    ∧ (∀ r ∈ t1.rows,
        CalDate.le d1 r.ts.dateOf = true ∧ CalDate.le r.ts.dateOf d1 = true)
    ∧ (resultRows (build_comparison_df t1 "kWh" (d1, d1) [] [])).length
        ≠ t1.rows.length :=
  ⟨by decide, by decide, by decide⟩

/-- C1 (amended): for a non-empty Measurement Table and a DateRange
selection whose midnight-normalized bounds cover every timestamp of the
table (start's midnight at or before each timestamp, end's midnight at or
after each timestamp), `build_comparison_df` yields an aligned table with
the same row count as the input in which exactly one `Period` label
(the range label) appears. -/
theorem c1_amended_full_range (data : Table) (v : String) (s e : CalDate)
    (df : List PRow) (plot : TrendPlot)
    (hok : build_comparison_df data v (s, e) [] [] = .ok (df, plot))
    (hne : data.rows ≠ [])
    (hcov : ∀ r ∈ data.rows,
      Timestamp.le s.toTimestamp r.ts = true
        ∧ Timestamp.le r.ts e.toTimestamp = true) :
    df.length = data.rows.length
    ∧ (df.map PRow.period).dedup = [rangeLabel s e] := by
  have hdf : df = rangeBranchDf data s e := range_branch_ok hok
  have hfilter : (data.rows.filter fun r =>
      Timestamp.le s.toTimestamp r.ts && Timestamp.le r.ts e.toTimestamp)
      = data.rows := by
    rw [List.filter_eq_self]
    intro r hr
    rw [Bool.and_eq_true]
    exact ⟨(hcov r hr).1, (hcov r hr).2⟩
  subst hdf
  unfold rangeBranchDf
  rw [hfilter]
  constructor
  · exact List.length_map _ _
  · have hmap : (data.rows.map (tagRange s e)).map PRow.period
        = data.rows.map fun _ => rangeLabel s e := by
      rw [List.map_map]
      rfl
    rw [hmap]
    apply dedup_const
    · intro h0
      rw [List.map_eq_nil_iff] at h0
      exact hne h0
    · intro x hx
      rw [List.mem_map] at hx
      obtain ⟨r, _, rfl⟩ := hx
      rfl

/-- C1 (amended), witness at `tMid` with the full range 2024-01-01..02. -/
theorem c1_amended_witness :
    build_comparison_df tMid "kWh" (d1, d2) [] []
      = .ok (rangeBranchDf tMid d1 d2, ⟨"Timestamp", "kWh", "Period", none⟩)
    ∧ tMid.rows ≠ []
    ∧ (∀ r ∈ tMid.rows,
        Timestamp.le d1.toTimestamp r.ts = true
          ∧ Timestamp.le r.ts d2.toTimestamp = true)
    ∧ ((rangeBranchDf tMid d1 d2).length = tMid.rows.length
       ∧ ((rangeBranchDf tMid d1 d2).map PRow.period).dedup = [rangeLabel d1 d2]) :=
  ⟨by decide, by decide, by decide,
   c1_amended_full_range tMid "kWh" d1 d2 (rangeBranchDf tMid d1 d2)
     ⟨"Timestamp", "kWh", "Period", none⟩ (by decide) (by decide) (by decide)⟩

/-- C2, counterexample to the claim as stated: with the single-day range
`d1..d1`, the aligned table is not the set of rows whose timestamp falls on
that calendar day — the noon row of `t1` falls on 2024-01-01 but is not
returned, because both bounds normalize to midnight. -/
theorem c2_counterexample :
    resultRows (build_comparison_df t1 "kWh" (d1, d1) [] [])
      ≠ (t1.rows.filter fun r => r.ts.dateOf == d1).map (tagRange d1 d1) :=
  by decide

/-- C2 (amended): for every Measurement Table and a DateRange selection with
start = end = D, `build_comparison_df` returns exactly those rows whose
timestamp equals midnight of day D (same day number and zero time of day):
the bounds are normalized to timestamp resolution, so rows later in the day
are excluded. -/
theorem c2_amended_single_day (data : Table) (v : String) (D : CalDate)
    (df : List PRow) (plot : TrendPlot)
    (hok : build_comparison_df data v (D, D) [] [] = .ok (df, plot)) :
    df = (data.rows.filter fun r =>
        decide (r.ts.dayNumber = D.toTimestamp.dayNumber)
          && decide (r.ts.tod = 0)).map (tagRange D D) := by
  have hdf : df = rangeBranchDf data D D := range_branch_ok hok
  subst hdf
  unfold rangeBranchDf
  congr 1
  apply List.filter_congr
  intro r _
  exact singleDay_filter_pred D r.ts

/-- C2 (amended), witness at `t1`: only the midnight row survives. -/
theorem c2_amended_witness :
    build_comparison_df t1 "kWh" (d1, d1) [] []
      = .ok ([⟨ts1, [("kWh", 5)], rangeLabel d1 d1, none⟩],
             ⟨"Timestamp", "kWh", "Period", none⟩)
    ∧ [⟨ts1, [("kWh", 5)], rangeLabel d1 d1, none⟩]
      = (t1.rows.filter fun r =>
          decide (r.ts.dayNumber = d1.toTimestamp.dayNumber)
            && decide (r.ts.tod = 0)).map (tagRange d1 d1) :=
  ⟨by decide,
   c2_amended_single_day t1 "kWh" d1 [⟨ts1, [("kWh", 5)], rangeLabel d1 d1, none⟩]
     ⟨"Timestamp", "kWh", "Period", none⟩ (by decide)⟩

/-- C3 (code bug): `render_kpis` on a zero-row aligned table does fail —
pandas `idxmax` raises on the empty column — and such tables do arise (here
from a DateRange selection matching no rows of `t3`); but no caller catches
the failure, so the app crashes instead of showing a neutral placeholder:
the claim's second half is what the code fails to do. -/
theorem c3_code_bug_empty_kpis :
    (∀ v : String, render_kpis [] v = .error .emptyArgmax)
    ∧ render_kpis (resultRows (build_comparison_df t3 "kWh" (d1, d1) [] [])) "kWh"
        = .error .emptyArgmax :=
  ⟨fun _ => rfl, by decide⟩

/-- C4, counterexample to the claim as stated: on `dfBA` the periods appear
in first-appearance order "B", "A", but the totals computation (pandas
`groupby` with its default `sort=True`) returns the groups in sorted order
"A", "B". -/
theorem c4_counterexample :
    totalsByPeriod dfBA "kWh" ≠ totalsByPeriodFirstAppearance dfBA "kWh"
    ∧ totalsByPeriod dfBA "kWh" = [("A", 5), ("B", 30)]
    ∧ (dfBA.map PRow.period).eraseDups = ["B", "A"] :=
  ⟨by decide, by decide, by decide⟩

/-- C4 (amended): the totals computation produces one row per distinct
`Period` value of the aligned table — no more (keys are nodup) and no fewer
(every period appears) — each carrying the sum of the variable over that
period's rows, with the groups ordered by ascending `Period` label
(lexicographic string order), not by first appearance. -/
theorem c4_amended_totals_sorted (df : List PRow) (v : String) :
    List.Sorted (fun a b => strLe a b = true) ((totalsByPeriod df v).map Prod.fst)
    ∧ ((totalsByPeriod df v).map Prod.fst).Nodup
    ∧ (∀ p : String, p ∈ (totalsByPeriod df v).map Prod.fst ↔ p ∈ df.map PRow.period)
    ∧ ∀ pr ∈ totalsByPeriod df v, pr.2 = groupSum df v pr.1 := by
  have hkeys : (totalsByPeriod df v).map Prod.fst
      = ((df.map PRow.period).dedup).insertionSort fun a b => strLe a b = true := by
    unfold totalsByPeriod
    rw [List.map_map]
    exact List.map_id _
  refine ⟨?_, ?_, ?_, ?_⟩
  · rw [hkeys]
    exact List.sorted_insertionSort _ _
  · rw [hkeys]
    exact ((List.perm_insertionSort _ _).nodup_iff).mpr (List.nodup_dedup _)
  · intro p
    rw [hkeys, (List.perm_insertionSort _ _).mem_iff, List.mem_dedup]
  · intro pr hpr
    unfold totalsByPeriod at hpr
    rw [List.mem_map] at hpr
    obtain ⟨q, _, rfl⟩ := hpr
    rfl

/-- C4 (amended), witness at `dfBA`. -/
theorem c4_amended_witness :
    List.Sorted (fun a b => strLe a b = true) ((totalsByPeriod dfBA "kWh").map Prod.fst)
    ∧ ((totalsByPeriod dfBA "kWh").map Prod.fst).Nodup
    ∧ (∀ p : String,
        p ∈ (totalsByPeriod dfBA "kWh").map Prod.fst ↔ p ∈ dfBA.map PRow.period)
    ∧ ∀ pr ∈ totalsByPeriod dfBA "kWh", pr.2 = groupSum dfBA "kWh" pr.1 :=
  c4_amended_totals_sorted dfBA "kWh"

/-- C5 (confirmed): `build_comparison_df` obeys the precedence
MonthSet > WeekSet > DateRange.  With a non-empty month list the result does
not depend on the date range or the week list; with an empty month list and
a non-empty week list it does not depend on the date range; with both lists
empty the date-range branch is taken. -/
theorem c5_precedence (data : Table) (v : String) (months weeks w1 w2 : List String)
    (r1 r2 : CalDate × CalDate) :
    (months ≠ [] →
      build_comparison_df data v r1 months w1
        = build_comparison_df data v r2 months w2)
    ∧ (months = [] → weeks ≠ [] →
      build_comparison_df data v r1 months weeks
        = build_comparison_df data v r2 months weeks)
    ∧ (months = [] → weeks = [] →
      build_comparison_df data v r1 months weeks
        = (if v ∈ rangeCols data then
             Except.ok (rangeBranchDf data r1.1 r1.2,
               ⟨"Timestamp", v, "Period", none⟩)
           else Except.error BuildError.unknownVariable)) := by
  refine ⟨?_, ?_, ?_⟩
  · intro hm
    simp [build_comparison_df, hm]
  · intro hm hw
    subst hm
    simp [build_comparison_df, hw]
  · intro hm hw
    subst hm
    subst hw
    rfl

/-- C5, witness: with months selected, changing the range and week inputs
changes nothing; with both selection lists empty the range branch runs. -/
theorem c5_precedence_witness :
    build_comparison_df t1 "kWh" (d1, d1) ["2024-01"] ["x"]
      = build_comparison_df t1 "kWh" (⟨2020, 1, 1⟩, ⟨2020, 1, 2⟩) ["2024-01"] []
    ∧ build_comparison_df t1 "kWh" (d1, d1) [] []
      = (if "kWh" ∈ rangeCols t1 then
           Except.ok (rangeBranchDf t1 d1 d1, ⟨"Timestamp", "kWh", "Period", none⟩)
         else Except.error BuildError.unknownVariable) :=
  ⟨(c5_precedence t1 "kWh" ["2024-01"] [] ["x"] [] (d1, d1)
      (⟨2020, 1, 1⟩, ⟨2020, 1, 2⟩)).1 (by decide),
   (c5_precedence t1 "kWh" [] [] [] [] (d1, d1) (d1, d1)).2.2 rfl rfl⟩

/-- C6, counterexample to the claim as stated: the name "Period" is not a
column of `t1`, yet `build_comparison_df` does not fail on it — `px.line`
checks the selected column against the built frame, which carries the
synthetic `Period` (and, in month/week mode, `AlignedX`) columns. -/
theorem c6_counterexample :
    ("Period" ∉ "Timestamp" :: t1.cols)
    ∧ build_comparison_df t1 "Period" (d1, d1) ["2024-01"] []
        ≠ .error .unknownVariable :=
  ⟨by decide, by decide⟩

/-- C6 (amended): for every variable name that is neither a column of the
table (`Timestamp` or a variable column) nor one of the synthetic names
`Period` and `AlignedX`, `build_comparison_df` fails — the chart
construction rejects the unknown column — and no aligned table is returned,
in every selection mode. -/
theorem c6_amended_unknown_variable (data : Table) (v : String)
    (range : CalDate × CalDate) (months weeks : List String)
    (h1 : v ∉ "Timestamp" :: data.cols) (h2 : v ≠ "Period") (h3 : v ≠ "AlignedX") :
    build_comparison_df data v range months weeks = .error .unknownVariable := by
  have hmw : v ∉ monthWeekCols data := by
    intro hmem
    simp only [monthWeekCols, List.mem_cons, List.mem_append,
      List.mem_singleton] at hmem
    simp only [List.mem_cons] at h1
    tauto
  have hr : v ∉ rangeCols data := by
    intro hmem
    simp only [rangeCols, List.mem_cons, List.mem_append,
      List.mem_singleton] at hmem
    simp only [List.mem_cons] at h1
    tauto
  cases months with
  | cons m ms => simp [build_comparison_df, hmw]
  | nil =>
    cases weeks with
    | cons w ws => simp [build_comparison_df, hmw]
    | nil => simp [build_comparison_df, hr]

/-- C6 (amended), witness at the unknown name "quux". -/
theorem c6_amended_witness :
    ("quux" ∉ "Timestamp" :: t1.cols)
    ∧ "quux" ≠ "Period"
    ∧ "quux" ≠ "AlignedX"
    ∧ build_comparison_df t1 "quux" (d1, d1) ["2024-01"] []
        = .error .unknownVariable :=
  ⟨by decide, by decide, by decide,
   c6_amended_unknown_variable t1 "quux" (d1, d1) ["2024-01"] []
     (by decide) (by decide) (by decide)⟩

/-- C7 (code bug): `render_sidebar` stores an uploaded CSV into session
state BEFORE validating its `Timestamp` column, so when validation raises
(here: the column is absent) the malformed table has already replaced the
previous one — the session state after the failed upload differs from the
state before it, against the claim's atomicity. -/
theorem c7_code_bug_upload_retains :
    render_sidebar_upload ⟨some goodRaw⟩ (some badRaw)
      = (⟨some badRaw⟩, .uploadError .missingTimestamp)
    ∧ (⟨some badRaw⟩ : SessionState) ≠ ⟨some goodRaw⟩ :=
  ⟨by decide, by decide⟩

/-- C8 (confirmed): with a non-empty MonthSet selection (and valid dates in
the table), every row of the aligned table has its timestamp's year-month
string equal to its `Period` label and `AlignedX` equal to its timestamp's
day of month, which lies in 1..31; the aligned table is the concatenation,
in selection order, of the per-label filtered subsets. -/
theorem c8_month_alignment (data : Table) (v : String) (range : CalDate × CalDate)
    (months weeks : List String) (df : List PRow) (plot : TrendPlot)
    (hmon : months ≠ [])
    (hvalid : ∀ r ∈ data.rows, r.ts.ValidDate)
    (hok : build_comparison_df data v range months weeks = .ok (df, plot)) :
    df = monthBranchDf data months
    ∧ ∀ r ∈ df, monthPeriodStr r.ts = r.period
        ∧ r.alignedX = some r.ts.day ∧ 1 ≤ r.ts.day ∧ r.ts.day ≤ 31 := by
  have hdf : df = monthBranchDf data months := month_branch_ok hmon hok
  subst hdf
  refine ⟨rfl, ?_⟩
  intro r hr
  unfold monthBranchDf at hr
  rw [List.mem_flatMap] at hr
  obtain ⟨m, _, hr2⟩ := hr
  rw [List.mem_map] at hr2
  obtain ⟨r0, hr0, rfl⟩ := hr2
  rw [List.mem_filter] at hr0
  obtain ⟨hr0mem, hpred⟩ := hr0
  have hper : monthPeriodStr r0.ts = m := by simpa using hpred
  have hv := hvalid r0 hr0mem
  unfold Timestamp.ValidDate at hv
  exact ⟨hper, rfl, hv.2.2.1, le_trans hv.2.2.2.1 (daysInMonth_le_31 _ _)⟩

/-- C8, witness at `t1` with the month "2024-01". -/
theorem c8_month_alignment_witness :
    (["2024-01"] ≠ ([] : List String))
    ∧ (∀ r ∈ t1.rows, r.ts.ValidDate)
    ∧ build_comparison_df t1 "kWh" (d1, d1) ["2024-01"] []
        = .ok (monthBranchDf t1 ["2024-01"],
               ⟨"AlignedX", "kWh", "Period", some "Day of Month"⟩)
    ∧ (monthBranchDf t1 ["2024-01"] = monthBranchDf t1 ["2024-01"]
       ∧ ∀ r ∈ monthBranchDf t1 ["2024-01"], monthPeriodStr r.ts = r.period
           ∧ r.alignedX = some r.ts.day ∧ 1 ≤ r.ts.day ∧ r.ts.day ≤ 31) :=
  ⟨by decide, by decide, by decide,
   c8_month_alignment t1 "kWh" (d1, d1) ["2024-01"] [] (monthBranchDf t1 ["2024-01"])
     ⟨"AlignedX", "kWh", "Period", some "Day of Month"⟩
     (by decide) (by decide) (by decide)⟩

/-- C9 (confirmed): with an empty MonthSet and a non-empty WeekSet
selection, every row of the aligned table carries as `Period` label exactly
the weekly period string of its own timestamp (the Monday..Sunday ISO-week
span containing it, rendered "start/end"), its `AlignedX` equals the
timestamp's weekday (0 = Monday) and lies in 0..6, and the row's day number
lies within the labelled week's span. -/
theorem c9_week_alignment (data : Table) (v : String) (range : CalDate × CalDate)
    (weeks : List String) (df : List PRow) (plot : TrendPlot)
    (hwk : weeks ≠ [])
    (hok : build_comparison_df data v range [] weeks = .ok (df, plot)) :
    df = weekBranchDf data weeks
    ∧ ∀ r ∈ df, weekPeriodStr r.ts = r.period
        ∧ r.alignedX = some r.ts.weekday
        ∧ r.ts.weekday ≤ 6
        ∧ r.ts.dayNumber - r.ts.weekday ≤ r.ts.dayNumber
        ∧ r.ts.dayNumber ≤ r.ts.dayNumber - r.ts.weekday + 6
        ∧ r.period = dateStrOfDayNumber (r.ts.dayNumber - r.ts.weekday) ++ "/"
            ++ dateStrOfDayNumber (r.ts.dayNumber - r.ts.weekday + 6) := by
  have hdf : df = weekBranchDf data weeks := week_branch_ok hwk hok
  subst hdf
  refine ⟨rfl, ?_⟩
  intro r hr
  unfold weekBranchDf at hr
  rw [List.mem_flatMap] at hr
  obtain ⟨w, _, hr2⟩ := hr
  rw [List.mem_map] at hr2
  obtain ⟨r0, hr0, rfl⟩ := hr2
  rw [List.mem_filter] at hr0
  obtain ⟨_, hpred⟩ := hr0
  have hper : weekPeriodStr r0.ts = w := by simpa using hpred
  have hwd : r0.ts.weekday ≤ 6 := by
    unfold Timestamp.weekday
    omega
  have h6 : r0.ts.dayNumber ≤ r0.ts.dayNumber - r0.ts.weekday + 6 := by
    omega
  have hlast : w = dateStrOfDayNumber (r0.ts.dayNumber - r0.ts.weekday) ++ "/"
      ++ dateStrOfDayNumber (r0.ts.dayNumber - r0.ts.weekday + 6) := by
    rw [← hper]
    rfl
  exact ⟨hper, rfl, hwd, Nat.sub_le _ _, h6, hlast⟩

/-- C9, witness at `t1` with the week of 2024-01-01. -/
theorem c9_week_alignment_witness :
    (["2024-01-01/2024-01-07"] ≠ ([] : List String))
    ∧ build_comparison_df t1 "kWh" (d1, d1) [] ["2024-01-01/2024-01-07"]
        = .ok (weekBranchDf t1 ["2024-01-01/2024-01-07"],
               ⟨"AlignedX", "kWh", "Period", some "Day of Week"⟩)
    ∧ (weekBranchDf t1 ["2024-01-01/2024-01-07"]
          = weekBranchDf t1 ["2024-01-01/2024-01-07"]
       ∧ ∀ r ∈ weekBranchDf t1 ["2024-01-01/2024-01-07"],
           weekPeriodStr r.ts = r.period
           ∧ r.alignedX = some r.ts.weekday
           ∧ r.ts.weekday ≤ 6
           ∧ r.ts.dayNumber - r.ts.weekday ≤ r.ts.dayNumber
           ∧ r.ts.dayNumber ≤ r.ts.dayNumber - r.ts.weekday + 6
           ∧ r.period = dateStrOfDayNumber (r.ts.dayNumber - r.ts.weekday) ++ "/"
               ++ dateStrOfDayNumber (r.ts.dayNumber - r.ts.weekday + 6)) :=
  ⟨by decide, by decide,
   c9_week_alignment t1 "kWh" (d1, d1) ["2024-01-01/2024-01-07"]
     (weekBranchDf t1 ["2024-01-01/2024-01-07"])
     ⟨"AlignedX", "kWh", "Period", some "Day of Week"⟩ (by decide) (by decide)⟩

/-- C10 (confirmed): `build_comparison_df`, modelled at statement level over
an explicit heap of frames, never writes the frame holding the Measurement
Table: whatever the selection, the frame bound to `data` before the call is
bound to the same rows after it (the filters copy into fresh frames and the
column assignments write only to those copies). -/
theorem c10_frame_preservation (h : Heap) (dataId : Nat) (rows : List HRow)
    (range : CalDate × CalDate) (months weeks : List String)
    (hlt : dataId < h.next) (hget : h.get dataId = some rows) :
    (build_comparison_heap h dataId range months weeks).1.get dataId = some rows := by
  unfold build_comparison_heap
  by_cases hm : months ≠ []
  · rw [if_pos hm]
    have halloc : dataId < (h.alloc []).1.next := by
      rw [Heap.next_alloc_eq]
      omega
    have h1 := (foldl_step_preserves dataId
      (fun m acc => compareStep dataId (fun r => monthPeriodStr r.ts == m) m
        (fun r => r.ts.day) acc)
      (fun a p hp => compareStep_preserves dataId _ a _ p hp)
      months (h.alloc []) halloc).1
    rw [Heap.get_alloc_lt _ _ _ hlt, hget] at h1
    exact h1
  · rw [if_neg hm]
    by_cases hw : weeks ≠ []
    · rw [if_pos hw]
      have halloc : dataId < (h.alloc []).1.next := by
        rw [Heap.next_alloc_eq]
        omega
      have h1 := (foldl_step_preserves dataId
        (fun w acc => compareStep dataId (fun r => weekPeriodStr r.ts == w) w
          (fun r => r.ts.weekday) acc)
        (fun a p hp => compareStep_preserves dataId _ a _ p hp)
        weeks (h.alloc []) halloc).1
      rw [Heap.get_alloc_lt _ _ _ hlt, hget] at h1
      exact h1
    · rw [if_neg hw]
      exact (get_after_range h dataId hlt _ _).trans hget

/-- C10, witness: the concrete heap `h0` holds the table as frame 0; after
the month-mode run the frame still holds the same rows. -/
theorem c10_frame_witness :
    0 < h0.next
    ∧ h0.get 0 = some rows0
    ∧ (build_comparison_heap h0 0 (d1, d1) ["2024-01"] []).1.get 0 = some rows0 :=
  ⟨by decide, by decide,
   c10_frame_preservation h0 0 rows0 (d1, d1) ["2024-01"] [] (by decide) (by decide)⟩

end EnergyApp
